import Mathlib

/-!
HTTP middlewares of `middleware/middleware.go`.

A shallow embedding of the three handler decorators `LoggingMiddleware`,
`AuthMiddleware` and `CorsMiddleware`, and of `respondError`.

Modelling conventions.

* A Go `string` is a Lean `String`.  The only string operations of the source are
  comparison with a constant and `strings.SplitN` at the one-byte separator `" "`;
  the byte `0x20` occurs in UTF-8 text only as the character `U+0020`, so cutting
  at characters and cutting at bytes agree.
* `http.Header` is a finite map from canonical keys to value lists; it is a total
  function that returns `[]` on a missing key (Go: the nil slice).  Every key the
  source uses is a constant already in canonical MIME form, so `Get` and `Set` do
  not rewrite it.
* `http.ResponseWriter` is an interface.  Its state is the header map returned by
  `w.Header()` together with the ordered record of the `WriteHeader` / `Write`
  calls made on it.
* A handler is a state transformer on the response writer and on the request
  behind the pointer `r`; it returns, or it panics.
* What a decorated handler does to its collaborators (the token validator, the
  wrapped handler, the logger) is recorded, in order, in `Run.calls`.
-/

namespace Middleware

/-! ## `strings.SplitN` -/

/-- Go `strings.Index(s, sep)`: position of the first occurrence of `sep` in `s`
(`none` for Go's `-1`). -/
def Index : List Char → List Char → Option Nat
  | [], sep => if sep = [] then some 0 else none
  | c :: s, sep =>
    if sep.isPrefixOf (c :: s) then some 0 else (Index s sep).map (· + 1)

/-- Go `strings.Count(s, sep)` for a non-empty `sep`: the number of non-overlapping
occurrences.  The fuel is the length of `s`, which bounds the number of rounds. -/
def countLoop (sep : List Char) : Nat → List Char → Nat
  | 0, _ => 0
  | fuel + 1, s =>
    match Index s sep with
    | none => 0
    | some m => 1 + countLoop sep fuel (s.drop (m + sep.length))

/-- Go `strings.Count(s, sep)`; for the empty separator it is the rune count plus one. -/
def Count (s sep : List Char) : Nat :=
  if sep = [] then s.length + 1 else countLoop sep s.length s

/-- Go `strings.explode(s, n)` with `n` already clamped to `0..len`: the first `n - 1`
runes one by one, then the rest. -/
def explodeLoop : Nat → List Char → List (List Char)
  | 0, _ => []
  | 1, s => [s]
  | _ + 2, [] => [[]]
  | k + 2, c :: s => [c] :: explodeLoop (k + 1) s

/-- Go `strings.explode(s, n)`. -/
def explode (s : List Char) (n : Int) : List (List Char) :=
  let l := s.length
  let n := if n < 0 ∨ n > (l : Int) then l else n.toNat
  explodeLoop n s

/-- The loop of Go `strings.genSplit`: at most `k` cuts at `sep`, the remainder last. -/
def splitLoop (sep : List Char) : Nat → List Char → List (List Char)
  | 0, s => [s]
  | k + 1, s =>
    match Index s sep with
    | none => [s]
    | some m => s.take m :: splitLoop sep k (s.drop (m + sep.length))

/-- Go `strings.genSplit(s, sep, 0, n)`. -/
def genSplit (s sep : List Char) (n : Int) : List (List Char) :=
  if n = 0 then []
  else if sep = [] then explode s n
  else
    let n := if n < 0 then Count s sep + 1 else n.toNat
    let n := if n > s.length + 1 then s.length + 1 else n
    splitLoop sep (n - 1) s

/-- Go `strings.SplitN(s, sep, n)`. -/
def SplitN (s sep : String) (n : Int) : List String :=
  (genSplit s.data sep.data n).map String.mk

/-! ## Requests, headers, response writers -/

/-- Go `http.Header`: the values stored under each canonical key. -/
abbrev Header := String → List String

/-- Go `Header.Get`: the first value stored under `key`, `""` when there is none. -/
def Header.Get (h : Header) (key : String) : String :=
  match h key with
  | [] => ""
  | v :: _ => v

/-- Go `Header.Set`: `key` holds the single value `value` afterwards. -/
def Header.Set (h : Header) (key value : String) : Header :=
  fun k => if k = key then [value] else h k

/-- The header map with no entries. -/
def Header.empty : Header := fun _ => []

/-- Go `url.URL`; only `Path` is read. -/
structure URL where
  Path : String
deriving DecidableEq, Repr

/-- Go `http.Response`; only `StatusCode` is read. -/
structure HTTPResponse where
  StatusCode : Int
deriving DecidableEq, Repr

/-- Go `http.Request`, the fields the middlewares read.  `URL` and `Response` are
pointers, `none` is nil.  `Response` is "the redirect response which caused this
request to be created", populated only during client redirects: it is nil on a
request a server hands to a handler. -/
structure Request where
  Method : String
  URL : Option URL
  Header : Header
  RemoteAddr : String
  Response : Option HTTPResponse

/-- Go `(*http.Request).UserAgent`. -/
def Request.UserAgent (r : Request) : String :=
  r.Header.Get "User-Agent"

/-- Modelled from the spec: the response envelope type `v1.Response` of package
`internal/v1` is not part of the sources at hand; the spec gives it the fields
`success: bool` and `message: string`. -/
structure Response where
  Success : Bool
  Message : String
deriving DecidableEq, Repr

/-- One call on an `http.ResponseWriter` that sends something. -/
inductive WriterCall where
  /-- Call `w.WriteHeader(statusCode)`. -/
  | WriteHeader (statusCode : Nat)
  /-- Call `w.Write(data)`. -/
  | Write (data : String)
  /-- Call `json.NewEncoder(w).Encode(v)`: one `Write` of the JSON text of `v`. -/
  | Encode (v : Response)
deriving DecidableEq, Repr

/-- State of an `http.ResponseWriter`: its header map and the calls made so far,
oldest first. -/
structure ResponseWriter where
  header : Header
  calls : List WriterCall

/-- Effect of `w.Header().Set(key, value)`. -/
def ResponseWriter.HeaderSet (w : ResponseWriter) (key value : String) : ResponseWriter :=
  { w with header := w.header.Set key value }

/-- Effect of `w.WriteHeader(statusCode)`. -/
def ResponseWriter.WriteHeader (w : ResponseWriter) (statusCode : Nat) : ResponseWriter :=
  { w with calls := w.calls ++ [WriterCall.WriteHeader statusCode] }

/-- Effect of `json.NewEncoder(w).Encode(v)`. -/
def ResponseWriter.Encode (w : ResponseWriter) (v : Response) : ResponseWriter :=
  { w with calls := w.calls ++ [WriterCall.Encode v] }

/-- The status code a sequence of writer calls puts on the wire: that of the first
`WriteHeader`, or 200 when a body write comes first or nothing is written. -/
def statusOf : List WriterCall → Nat
  | WriterCall.WriteHeader c :: _ => c
  | _ => 200

/-- Go `http.StatusUnauthorized`. -/
def StatusUnauthorized : Nat := 401

/-- Go `http.StatusOK`. -/
def StatusOK : Nat := 200

/-! ## Handlers -/

/-- What a handler leaves behind: the writer, the request behind `r`, and whether it
panicked. -/
structure Outcome where
  w : ResponseWriter
  r : Request
  panicked : Bool

/-- Go `http.Handler`: `ServeHTTP(w, r)`. -/
abbrev Handler := ResponseWriter → Request → Outcome

/-- The record handed to `slog.Info`. -/
structure LogRecord where
  method : String
  path : String
  status : Int
  duration : Int
  remote_addr : String
  user_agent : String
deriving DecidableEq, Repr

/-- One call of a middleware on a collaborator. -/
inductive Call where
  /-- Call `crypto.ValidateToken(tokenString)`. -/
  | ValidateToken (tokenString : String)
  /-- Call `next.ServeHTTP(w, r)`, with the writer and request as they are then. -/
  | ServeHTTP (w : ResponseWriter) (r : Request)
  /-- Call `slog.Info(msg, ...)`. -/
  | Info (msg : String) (fields : LogRecord)

/-- True on a `next.ServeHTTP` call. -/
def Call.isServeHTTP : Call → Bool
  | Call.ServeHTTP _ _ => true
  | _ => false

/-- True on a `slog.Info` call. -/
def Call.isInfo : Call → Bool
  | Call.Info _ _ => true
  | _ => false

/-- One execution of a decorated handler: the final writer and request, the calls
it made on its collaborators (oldest first), and whether it ended in a panic. -/
structure Run where
  w : ResponseWriter
  r : Request
  calls : List Call
  panicked : Bool

/-- Number of times the run invoked `next.ServeHTTP`. -/
def Run.nextCount (x : Run) : Nat :=
  (x.calls.filter Call.isServeHTTP).length

/-! ## The source functions -/

/-- Source `respondError`: sends a JSON error response. -/
def respondError (w : ResponseWriter) (status : Nat) (message : String) : ResponseWriter :=
  let w := w.HeaderSet "Content-Type" "application/json"
  let w := w.WriteHeader status
  w.Encode { Success := false, Message := message }

/-- Source `AuthMiddleware`: validates the bearer token of the `Authorization`
header.  `ValidateToken` is the collaborator `crypto.ValidateToken`. -/
def AuthMiddleware {ε κ : Type} (ValidateToken : String → Except ε κ) (next : Handler)
    (w : ResponseWriter) (r : Request) : Run :=
  let authHeader := r.Header.Get "Authorization"
  if authHeader = "" then
    ⟨respondError w StatusUnauthorized "Authorization header is required", r, [], false⟩
  else
    let parts := SplitN authHeader " " 2
    if parts.length ≠ 2 then
      ⟨respondError w StatusUnauthorized "Invalid authorization format. Use: Bearer <token>",
        r, [], false⟩
    else if parts.getD 0 "" ≠ "Bearer" then
      ⟨respondError w StatusUnauthorized "Invalid authorization type. Expected: Bearer",
        r, [], false⟩
    else
      let tokenString := parts.getD 1 ""
      if tokenString = "" then
        ⟨respondError w StatusUnauthorized "Token is required", r, [], false⟩
      else
        match ValidateToken tokenString with
        | Except.error _ =>
          ⟨respondError w StatusUnauthorized "Invalid or expired token", r,
            [Call.ValidateToken tokenString], false⟩
        | Except.ok _ =>
          let o := next w r
          ⟨o.w, o.r, [Call.ValidateToken tokenString, Call.ServeHTTP w r], o.panicked⟩

/-- Source `CorsMiddleware`: sets the CORS headers and answers preflight requests. -/
def CorsMiddleware (next : Handler) (w : ResponseWriter) (r : Request) : Run :=
  let origin := r.Header.Get "Origin"
  let origin := if origin = "" then "*" else origin
  let w := w.HeaderSet "Access-Control-Allow-Origin" origin
  let w := w.HeaderSet "Access-Control-Allow-Methods" "GET, POST, PUT, DELETE, PATCH, OPTIONS"
  let w := w.HeaderSet "Access-Control-Allow-Headers"
    "Content-Type, Authorization, X-Requested-With, Accept, Origin"
  let w := w.HeaderSet "Access-Control-Allow-Credentials" "true"
  let w := w.HeaderSet "Access-Control-Max-Age" "3600"
  let w := w.HeaderSet "Access-Control-Expose-Headers" "Content-Length, Content-Range"
  if r.Method = "OPTIONS" then
    ⟨w.WriteHeader StatusOK, r, [], false⟩
  else
    let o := next w r
    ⟨o.w, o.r, [Call.ServeHTTP w r], o.panicked⟩

/-- Source `LoggingMiddleware`: logs HTTP requests.  `start` and `finish` are the
two clock readings (`time.Now()` before the call of `next`, and the one inside
`time.Since`).  The arguments of `slog.Info` are evaluated left to right through
the pointer `r` after `next` has returned; dereferencing a nil `r.URL` or a nil
`r.Response` panics before `slog.Info` is reached. -/
def LoggingMiddleware (next : Handler) (start finish : Int)
    (w : ResponseWriter) (r : Request) : Run :=
  let o := next w r
  if o.panicked then
    ⟨o.w, o.r, [Call.ServeHTTP w r], true⟩
  else
    let duration := finish - start
    match o.r.URL with
    | none => ⟨o.w, o.r, [Call.ServeHTTP w r], true⟩
    | some url =>
      match o.r.Response with
      | none => ⟨o.w, o.r, [Call.ServeHTTP w r], true⟩
      | some resp =>
        ⟨o.w, o.r,
          [Call.ServeHTTP w r,
            Call.Info "HTTP Request"
              { method := o.r.Method, path := url.Path, status := resp.StatusCode,
                duration := duration, remote_addr := o.r.RemoteAddr,
                user_agent := o.r.UserAgent }],
          false⟩

/-! ## The spec's reading of the format rule -/

/-- The loop of `whitespaceParts`: `cur` holds the part being read, newest character
first. -/
def partsLoop : List Char → List Char → List (List Char)
  | [], cur => if cur = [] then [] else [cur.reverse]
  | c :: s, cur =>
    if c.isWhitespace then
      (if cur = [] then partsLoop s [] else cur.reverse :: partsLoop s [])
    else partsLoop s (c :: cur)

/-- The spec's words "whitespace-separated parts" of a header value: its maximal runs
of characters that are not whitespace.  This follows the spec, not the source. -/
def whitespaceParts (s : String) : List String :=
  (partsLoop s.data []).map String.mk

/-- The five messages `AuthMiddleware` passes to `respondError`. -/
def authErrorMessages : List String :=
  ["Authorization header is required",
   "Invalid authorization format. Use: Bearer <token>",
   "Invalid authorization type. Expected: Bearer",
   "Token is required",
   "Invalid or expired token"]

/-- The keys of the six headers `CorsMiddleware` sets. -/
def corsKeys : List String :=
  ["Access-Control-Allow-Origin",
   "Access-Control-Allow-Methods",
   "Access-Control-Allow-Headers",
   "Access-Control-Allow-Credentials",
   "Access-Control-Max-Age",
   "Access-Control-Expose-Headers"]

/-! ## Sample inputs -/

/-- A writer nothing has been done to. -/
def freshWriter : ResponseWriter := ⟨Header.empty, []⟩

/-- A request as a server hands it to a handler: `URL` set, `Response` nil. -/
def serverRequest (method : String) (header : Header) : Request :=
  { Method := method, URL := some ⟨"/api"⟩, Header := header,
    RemoteAddr := "127.0.0.1:4000", Response := none }

/-- A server request whose only header is `Authorization: value`. -/
def bearerRequest (value : String) : Request :=
  serverRequest "GET" (Header.empty.Set "Authorization" value)

/-- A client-side request created by following a `302` redirect: `Response` is set. -/
def redirectedRequest : Request :=
  { Method := "GET", URL := some ⟨"/api"⟩, Header := Header.empty,
    RemoteAddr := "127.0.0.1:4000", Response := some ⟨302⟩ }

/-- A validator that accepts every token. -/
def acceptAll : String → Except String String := fun t => Except.ok t

/-- A validator that rejects every token as expired. -/
def rejectExpired : String → Except String String := fun _ => Except.error "token is expired"

/-- A validator that rejects every token for its signature. -/
def rejectSignature : String → Except Nat String := fun _ => Except.error 7

/-- A handler that answers `201 Created` and leaves the request alone. -/
def createdHandler : Handler := fun w r => ⟨w.WriteHeader 201, r, false⟩

/-! ## Facts about `strings.SplitN` at the separator `" "` -/

theorem Index_space_absent (s : List Char) (h : ' ' ∉ s) : Index s [' '] = none := by
  induction s with
  | nil => simp [Index]
  | cons c s ih =>
    have hc : ' ' ≠ c := fun e => h (List.mem_cons.mpr (Or.inl e))
    have hs : ' ' ∉ s := fun e => h (List.mem_cons_of_mem _ e)
    simp [Index, List.isPrefixOf, hc, ih hs]

theorem Index_space_first (a b : List Char) (h : ' ' ∉ a) :
    Index (a ++ ' ' :: b) [' '] = some a.length := by
  induction a with
  | nil => simp [Index, List.isPrefixOf]
  | cons c a ih =>
    have hc : ' ' ≠ c := fun e => h (List.mem_cons.mpr (Or.inl e))
    have ha : ' ' ∉ a := fun e => h (List.mem_cons_of_mem _ e)
    simp [Index, List.isPrefixOf, hc, ih ha]

theorem genSplit_space_absent (s : List Char) (h : ' ' ∉ s) :
    genSplit s [' '] 2 = [s] := by
  cases s with
  | nil => simp [genSplit, splitLoop]
  | cons c s =>
    simp [genSplit, splitLoop, Index_space_absent _ h]

theorem genSplit_space_first (a b : List Char) (h : ' ' ∉ a) :
    genSplit (a ++ ' ' :: b) [' '] 2 = [a, b] := by
  simp [genSplit, splitLoop, Index_space_first a b h]

theorem SplitN_no_space (s : String) (h : ' ' ∉ s.data) : SplitN s " " 2 = [s] := by
  have e : (" " : String).data = [' '] := rfl
  simp [SplitN, e, genSplit_space_absent _ h]

theorem SplitN_first_space (a b : String) (h : ' ' ∉ a.data) :
    SplitN (a ++ " " ++ b) " " 2 = [a, b] := by
  have e : (" " : String).data = [' '] := rfl
  have e2 : (a ++ " " ++ b).data = a.data ++ ' ' :: b.data := by
    simp [String.data_append, e]
  simp [SplitN, e, e2, genSplit_space_first _ _ h]

/-- Every string either has no space or is cut by its first space. -/
theorem space_cases (s : String) :
    ' ' ∉ s.data ∨ ∃ a b : String, ' ' ∉ a.data ∧ s = a ++ " " ++ b := by
  by_cases h : ' ' ∈ s.data
  · right
    obtain ⟨as, bs, e, hn⟩ := List.eq_append_cons_of_mem h
    refine ⟨⟨as⟩, ⟨bs⟩, hn, ?_⟩
    apply String.ext
    have e1 : (" " : String).data = [' '] := rfl
    simp [String.data_append, e1, e]
  · exact Or.inl h

/-! ## The four ways through `AuthMiddleware` -/

theorem append_space_ne_empty (a b : String) : a ++ " " ++ b ≠ "" := by
  intro h
  have h2 := congrArg String.length h
  have h3 : (" " : String).length = 1 := rfl
  have h4 : ("" : String).length = 0 := rfl
  rw [String.length_append, String.length_append, h3, h4] at h2
  omega

theorem bearer_cat (t : String) : "Bearer " ++ t = "Bearer" ++ " " ++ t := by
  apply String.ext
  simp [String.data_append]

theorem bearer_no_space : ' ' ∉ ("Bearer" : String).data := by decide

/-- The `Authorization` value is empty: the first guard answers. -/
theorem auth_of_empty {ε κ : Type} (v : String → Except ε κ) (next : Handler)
    (w : ResponseWriter) (r : Request) (h : r.Header.Get "Authorization" = "") :
    AuthMiddleware v next w r =
      ⟨respondError w StatusUnauthorized "Authorization header is required", r, [], false⟩ := by
  simp [AuthMiddleware, h]

/-- The `Authorization` value is non-empty and has no space: the length guard answers. -/
theorem auth_of_no_space {ε κ : Type} (v : String → Except ε κ) (next : Handler)
    (w : ResponseWriter) (r : Request) (h : r.Header.Get "Authorization" ≠ "")
    (hs : ' ' ∉ (r.Header.Get "Authorization").data) :
    AuthMiddleware v next w r =
      ⟨respondError w StatusUnauthorized "Invalid authorization format. Use: Bearer <token>",
        r, [], false⟩ := by
  simp [AuthMiddleware, h, SplitN_no_space _ hs]

/-- The `Authorization` value is `a`, a space, `b`, with no space in `a`. -/
theorem auth_of_split {ε κ : Type} (v : String → Except ε κ) (next : Handler)
    (w : ResponseWriter) (r : Request) (a b : String) (ha : ' ' ∉ a.data)
    (h : r.Header.Get "Authorization" = a ++ " " ++ b) :
    AuthMiddleware v next w r =
      if a ≠ "Bearer" then
        ⟨respondError w StatusUnauthorized "Invalid authorization type. Expected: Bearer",
          r, [], false⟩
      else if b = "" then
        ⟨respondError w StatusUnauthorized "Token is required", r, [], false⟩
      else
        match v b with
        | Except.error _ =>
          ⟨respondError w StatusUnauthorized "Invalid or expired token", r,
            [Call.ValidateToken b], false⟩
        | Except.ok _ =>
          ⟨(next w r).w, (next w r).r, [Call.ValidateToken b, Call.ServeHTTP w r],
            (next w r).panicked⟩ := by
  simp only [AuthMiddleware, h, SplitN_first_space a b ha, if_neg (append_space_ne_empty a b)]
  simp

/-! ## `AuthMiddleware` -/

/-- C1: the handler `AuthMiddleware(next)` invokes `next` exactly once when the
`Authorization` value is `"Bearer "` followed by a non-empty token the validator
accepts: its calls are the validation of that token and then `next.ServeHTTP` on
the writer and request it was given, and the writer it leaves is the one `next`
left, so it writes nothing itself.  For every other request `next` is not invoked. -/
theorem auth_invokes_next_exactly_when_accepted {ε κ : Type} (v : String → Except ε κ)
    (next : Handler) (w : ResponseWriter) (r : Request) :
    (∀ (tok : String) (c : κ), tok ≠ "" →
        r.Header.Get "Authorization" = "Bearer " ++ tok → v tok = Except.ok c →
        (AuthMiddleware v next w r).calls = [Call.ValidateToken tok, Call.ServeHTTP w r] ∧
        (AuthMiddleware v next w r).nextCount = 1 ∧
        (AuthMiddleware v next w r).w = (next w r).w ∧
        (AuthMiddleware v next w r).r = (next w r).r ∧
        (AuthMiddleware v next w r).panicked = (next w r).panicked) ∧
    ((¬ ∃ (tok : String) (c : κ), tok ≠ "" ∧
        r.Header.Get "Authorization" = "Bearer " ++ tok ∧ v tok = Except.ok c) →
        (AuthMiddleware v next w r).nextCount = 0) := by
  have hB := bearer_no_space
  have hcat := bearer_cat
  constructor
  · intro tok c htok hh hv
    have hh2 : r.Header.Get "Authorization" = "Bearer" ++ " " ++ tok := by rw [hh, hcat]
    rw [auth_of_split v next w r "Bearer" tok hB hh2]
    simp [htok, hv, Run.nextCount, Call.isServeHTTP]
  · intro hno
    by_cases he : r.Header.Get "Authorization" = ""
    · rw [auth_of_empty v next w r he]; rfl
    · rcases space_cases (r.Header.Get "Authorization") with hs | ⟨a, b, ha, hab⟩
      · rw [auth_of_no_space v next w r he hs]; rfl
      · rw [auth_of_split v next w r a b ha hab]
        by_cases h1 : a = "Bearer"
        · by_cases h2 : b = ""
          · simp [h1, h2, Run.nextCount]
          · cases hv : v b with
            | error e => simp [h1, h2, hv, Run.nextCount, Call.isServeHTTP]
            | ok c =>
              exfalso
              apply hno
              refine ⟨b, c, h2, ?_, hv⟩
              rw [hab, h1, hcat]
        · simp [h1, Run.nextCount]

/-- Witness for C1: a request with `Authorization: Bearer abc` and a validator that
accepts reaches `next` once; a request without the header never does. -/
theorem auth_invokes_next_exactly_when_accepted_witness :
    (AuthMiddleware acceptAll createdHandler freshWriter
        (bearerRequest "Bearer abc")).nextCount = 1 ∧
    (AuthMiddleware acceptAll createdHandler freshWriter
        (serverRequest "GET" Header.empty)).nextCount = 0 :=
  ⟨((auth_invokes_next_exactly_when_accepted acceptAll createdHandler freshWriter
        (bearerRequest "Bearer abc")).1
        "abc" "abc" (by decide) (by decide) rfl).2.1,
   (auth_invokes_next_exactly_when_accepted acceptAll createdHandler freshWriter
        (serverRequest "GET" Header.empty)).2
        (by
          rintro ⟨tok, c, -, h, -⟩
          have h0 : (serverRequest "GET" Header.empty).Header.Get "Authorization" = "" := rfl
          rw [h0] at h
          have h2 := congrArg String.length h
          have h3 : ("Bearer " : String).length = 7 := rfl
          have h4 : ("" : String).length = 0 := rfl
          rw [String.length_append, h3, h4] at h2
          omega)⟩

/-- Every run of `AuthMiddleware` that does not reach `next` is one `respondError`
with status 401 and one of the five messages. -/
theorem auth_run_cases {ε κ : Type} (v : String → Except ε κ) (next : Handler)
    (w : ResponseWriter) (r : Request) :
    (∃ m ∈ authErrorMessages, ∃ cs : List Call,
        AuthMiddleware v next w r = ⟨respondError w StatusUnauthorized m, r, cs, false⟩ ∧
        (cs = [] ∨ ∃ tok : String, tok ≠ "" ∧ cs = [Call.ValidateToken tok])) ∨
    (∃ tok : String, tok ≠ "" ∧
        AuthMiddleware v next w r =
          ⟨(next w r).w, (next w r).r, [Call.ValidateToken tok, Call.ServeHTTP w r],
            (next w r).panicked⟩) := by
  by_cases he : r.Header.Get "Authorization" = ""
  · left
    exact ⟨_, by simp [authErrorMessages], [], auth_of_empty v next w r he, Or.inl rfl⟩
  · rcases space_cases (r.Header.Get "Authorization") with hs | ⟨a, b, ha, hab⟩
    · left
      exact ⟨_, by simp [authErrorMessages], [], auth_of_no_space v next w r he hs, Or.inl rfl⟩
    · rw [auth_of_split v next w r a b ha hab]
      by_cases h1 : a = "Bearer"
      · by_cases h2 : b = ""
        · left
          exact ⟨"Token is required", by simp [authErrorMessages], [], by simp [h1, h2], Or.inl rfl⟩
        · cases hv : v b with
          | error e =>
            left
            exact ⟨"Invalid or expired token", by simp [authErrorMessages],
              [Call.ValidateToken b], by simp [h1, h2, hv], Or.inr ⟨b, h2, rfl⟩⟩
          | ok c =>
            right
            exact ⟨b, h2, by simp [h1, h2, hv]⟩
      · left
        exact ⟨"Invalid authorization type. Expected: Bearer", by simp [authErrorMessages],
          [], by simp [h1], Or.inl rfl⟩

/-- C2: whenever the handler `AuthMiddleware(next)` does not delegate to `next`, what
it has done to the response is: `Content-Type` set to `application/json`, then one
`WriteHeader(401)`, then one JSON envelope with `success = false` and one of the five
auth messages; nothing else is written, the request is untouched, there is no panic,
and `next` is not among its calls. -/
theorem auth_rejection_is_one_401_envelope {ε κ : Type} (v : String → Except ε κ)
    (next : Handler) (w : ResponseWriter) (r : Request)
    (h : (AuthMiddleware v next w r).nextCount = 0) :
    ∃ m ∈ authErrorMessages,
      (AuthMiddleware v next w r).w =
        { header := w.header.Set "Content-Type" "application/json",
          calls := w.calls ++
            [WriterCall.WriteHeader 401, WriterCall.Encode { Success := false, Message := m }] } ∧
      (AuthMiddleware v next w r).calls.filter Call.isServeHTTP = [] ∧
      (AuthMiddleware v next w r).r = r ∧
      (AuthMiddleware v next w r).panicked = false := by
  rcases auth_run_cases v next w r with ⟨m, hm, cs, e, hcs⟩ | ⟨tok, -, e⟩
  · refine ⟨m, hm, ?_⟩
    rw [e]
    refine ⟨?_, ?_, rfl, rfl⟩
    · simp [respondError, ResponseWriter.HeaderSet, ResponseWriter.WriteHeader,
        ResponseWriter.Encode, StatusUnauthorized]
    · rcases hcs with hcs | ⟨tok, -, hcs⟩ <;> simp [hcs, Call.isServeHTTP]
  · rw [e] at h
    simp [Run.nextCount, Call.isServeHTTP] at h

/-- Witness for C2: the request `Authorization: Basic abc123` is not delegated. -/
theorem auth_rejection_is_one_401_envelope_witness :
    ∃ m ∈ authErrorMessages,
      (AuthMiddleware acceptAll createdHandler freshWriter
        (bearerRequest "Basic abc123")).w =
        { header := freshWriter.header.Set "Content-Type" "application/json",
          calls := freshWriter.calls ++
            [WriterCall.WriteHeader 401, WriterCall.Encode { Success := false, Message := m }] } ∧
      (AuthMiddleware acceptAll createdHandler freshWriter
        (bearerRequest "Basic abc123")).calls.filter
          Call.isServeHTTP = [] ∧
      (AuthMiddleware acceptAll createdHandler freshWriter
        (bearerRequest "Basic abc123")).r =
        bearerRequest "Basic abc123" ∧
      (AuthMiddleware acceptAll createdHandler freshWriter
        (bearerRequest "Basic abc123")).panicked = false :=
  auth_rejection_is_one_401_envelope acceptAll createdHandler freshWriter
    (bearerRequest "Basic abc123") (by decide)

/-- C3: when the `Authorization` header is absent, or its first value is the empty
string, the handler answers 401 with the message "Authorization header is required"
and calls neither the token validator nor `next`. -/
theorem auth_missing_header {ε κ : Type} (v : String → Except ε κ)
    (next : Handler) (w : ResponseWriter) (r : Request)
    (h : r.Header "Authorization" = [] ∨ ∃ rest, r.Header "Authorization" = "" :: rest) :
    (AuthMiddleware v next w r).w =
        { header := w.header.Set "Content-Type" "application/json",
          calls := w.calls ++
            [WriterCall.WriteHeader 401,
             WriterCall.Encode
               { Success := false, Message := "Authorization header is required" }] } ∧
    (AuthMiddleware v next w r).calls = [] := by
  have he : r.Header.Get "Authorization" = "" := by
    rcases h with h | ⟨rest, h⟩ <;> simp [Header.Get, h]
  rw [auth_of_empty v next w r he]
  simp [respondError, ResponseWriter.HeaderSet, ResponseWriter.WriteHeader,
    ResponseWriter.Encode, StatusUnauthorized]

/-- Witness for C3: a request with no headers at all. -/
theorem auth_missing_header_witness :
    (AuthMiddleware acceptAll createdHandler freshWriter (serverRequest "GET" Header.empty)).w =
        { header := freshWriter.header.Set "Content-Type" "application/json",
          calls := freshWriter.calls ++
            [WriterCall.WriteHeader 401,
             WriterCall.Encode
               { Success := false, Message := "Authorization header is required" }] } ∧
    (AuthMiddleware acceptAll createdHandler freshWriter
      (serverRequest "GET" Header.empty)).calls = [] :=
  auth_missing_header acceptAll createdHandler freshWriter (serverRequest "GET" Header.empty)
    (Or.inl rfl)

/-- C4, as stated, fails: the value `"Bearer abc def"` is non-empty and has three
whitespace-separated parts, yet the handler sends no 401: it validates the token
`"abc def"` and invokes `next`, and the only write is the 201 of `next`. -/
theorem auth_three_parts_reach_next :
    (bearerRequest "Bearer abc def").Header.Get "Authorization" ≠ "" ∧
    whitespaceParts ((bearerRequest "Bearer abc def").Header.Get "Authorization") =
      ["Bearer", "abc", "def"] ∧
    (AuthMiddleware acceptAll createdHandler freshWriter
      (bearerRequest "Bearer abc def")).calls =
      [Call.ValidateToken "abc def",
       Call.ServeHTTP freshWriter (bearerRequest "Bearer abc def")] ∧
    (AuthMiddleware acceptAll createdHandler freshWriter
      (bearerRequest "Bearer abc def")).nextCount = 1 ∧
    (AuthMiddleware acceptAll createdHandler freshWriter
      (bearerRequest "Bearer abc def")).w.calls = [WriterCall.WriteHeader 201] := by
  refine ⟨by decide, by decide, ?_, by decide, by decide⟩
  rfl

/-- C4, amended: for every non-empty `Authorization` value that contains no space
character, the handler answers 401 with the message "Invalid authorization format.
Use: Bearer <token>" and calls neither the token validator nor `next`. -/
theorem auth_no_space_is_format_error {ε κ : Type} (v : String → Except ε κ)
    (next : Handler) (w : ResponseWriter) (r : Request)
    (h : r.Header.Get "Authorization" ≠ "")
    (hs : ' ' ∉ (r.Header.Get "Authorization").data) :
    (AuthMiddleware v next w r).w =
        { header := w.header.Set "Content-Type" "application/json",
          calls := w.calls ++
            [WriterCall.WriteHeader 401,
             WriterCall.Encode
               { Success := false,
                 Message := "Invalid authorization format. Use: Bearer <token>" }] } ∧
    (AuthMiddleware v next w r).calls = [] := by
  rw [auth_of_no_space v next w r h hs]
  simp [respondError, ResponseWriter.HeaderSet, ResponseWriter.WriteHeader,
    ResponseWriter.Encode, StatusUnauthorized]

/-- Witness for C4 amended: scheme and token separated by a tab. -/
theorem auth_no_space_is_format_error_witness :
    (AuthMiddleware acceptAll createdHandler freshWriter (bearerRequest "Bearer\tabc")).w =
        { header := freshWriter.header.Set "Content-Type" "application/json",
          calls := freshWriter.calls ++
            [WriterCall.WriteHeader 401,
             WriterCall.Encode
               { Success := false,
                 Message := "Invalid authorization format. Use: Bearer <token>" }] } ∧
    (AuthMiddleware acceptAll createdHandler freshWriter (bearerRequest "Bearer\tabc")).calls
      = [] :=
  auth_no_space_is_format_error acceptAll createdHandler freshWriter
    (bearerRequest "Bearer\tabc") (by decide) (by decide)

/-- C5: for every `Authorization` value that contains a space and whose text before
the first space is not exactly `"Bearer"`, the handler answers 401 with the message
"Invalid authorization type. Expected: Bearer", whatever follows the space, and calls
neither the token validator nor `next`. -/
theorem auth_wrong_scheme {ε κ : Type} (v : String → Except ε κ)
    (next : Handler) (w : ResponseWriter) (r : Request) (a b : String)
    (ha : ' ' ∉ a.data) (hab : r.Header.Get "Authorization" = a ++ " " ++ b)
    (hne : a ≠ "Bearer") :
    (AuthMiddleware v next w r).w =
        { header := w.header.Set "Content-Type" "application/json",
          calls := w.calls ++
            [WriterCall.WriteHeader 401,
             WriterCall.Encode
               { Success := false,
                 Message := "Invalid authorization type. Expected: Bearer" }] } ∧
    (AuthMiddleware v next w r).calls = [] := by
  rw [auth_of_split v next w r a b ha hab]
  simp [hne, respondError, ResponseWriter.HeaderSet, ResponseWriter.WriteHeader,
    ResponseWriter.Encode, StatusUnauthorized]

/-- Witness for C5: the value `"Basic abc123"`. -/
theorem auth_wrong_scheme_witness :
    (AuthMiddleware acceptAll createdHandler freshWriter (bearerRequest "Basic abc123")).w =
        { header := freshWriter.header.Set "Content-Type" "application/json",
          calls := freshWriter.calls ++
            [WriterCall.WriteHeader 401,
             WriterCall.Encode
               { Success := false,
                 Message := "Invalid authorization type. Expected: Bearer" }] } ∧
    (AuthMiddleware acceptAll createdHandler freshWriter (bearerRequest "Basic abc123")).calls
      = [] :=
  auth_wrong_scheme acceptAll createdHandler freshWriter (bearerRequest "Basic abc123")
    "Basic" "abc123" (by decide) (by decide) (by decide)

/-- C6: for the `Authorization` value `"Bearer "` the handler answers 401 with the
message "Token is required" and calls neither the validator nor `next`; and for no
request at all is the token validator called with the empty string. -/
theorem auth_empty_token {ε κ : Type} (v : String → Except ε κ)
    (next : Handler) (w : ResponseWriter) (r : Request) :
    (r.Header.Get "Authorization" = "Bearer " →
      (AuthMiddleware v next w r).w =
        { header := w.header.Set "Content-Type" "application/json",
          calls := w.calls ++
            [WriterCall.WriteHeader 401,
             WriterCall.Encode { Success := false, Message := "Token is required" }] } ∧
      (AuthMiddleware v next w r).calls = []) ∧
    Call.ValidateToken "" ∉ (AuthMiddleware v next w r).calls := by
  constructor
  · intro h
    have h2 : r.Header.Get "Authorization" = "Bearer" ++ " " ++ "" := by rw [h]; decide
    rw [auth_of_split v next w r "Bearer" "" bearer_no_space h2]
    simp [respondError, ResponseWriter.HeaderSet, ResponseWriter.WriteHeader,
      ResponseWriter.Encode, StatusUnauthorized]
  · rcases auth_run_cases v next w r with ⟨m, -, cs, e, hcs⟩ | ⟨tok, htok, e⟩
    · rw [e]
      rcases hcs with hcs | ⟨tok, htok, hcs⟩
      · simp [hcs]
      · simp only [hcs, List.mem_singleton]
        intro hc
        injection hc with hc
        exact htok hc.symm
    · rw [e]
      intro hc
      simp only [List.mem_cons, List.mem_singleton, List.mem_nil_iff, or_false] at hc
      rcases hc with hc | hc
      · injection hc with hc
        exact htok hc.symm
      · cases hc

/-- Witness for C6: the value `"Bearer "`. -/
theorem auth_empty_token_witness :
    ((AuthMiddleware acceptAll createdHandler freshWriter (bearerRequest "Bearer ")).w =
        { header := freshWriter.header.Set "Content-Type" "application/json",
          calls := freshWriter.calls ++
            [WriterCall.WriteHeader 401,
             WriterCall.Encode { Success := false, Message := "Token is required" }] } ∧
      (AuthMiddleware acceptAll createdHandler freshWriter (bearerRequest "Bearer ")).calls
        = []) ∧
    Call.ValidateToken "" ∉
      (AuthMiddleware acceptAll createdHandler freshWriter (bearerRequest "Bearer ")).calls :=
  ⟨(auth_empty_token acceptAll createdHandler freshWriter (bearerRequest "Bearer ")).1
      (by decide),
   (auth_empty_token acceptAll createdHandler freshWriter (bearerRequest "Bearer ")).2⟩

/-- C7: for the `Authorization` value `"Bearer "` followed by a non-empty token on
which the validator returns an error, the handler answers 401 with the message
"Invalid or expired token", its only call is that validation, and `next` is not
invoked; and the whole run is the same under any other validator that also returns
an error for this token, whatever the two errors are. -/
theorem auth_invalid_token_uniform {ε κ ε' κ' : Type} (v : String → Except ε κ)
    (v' : String → Except ε' κ') (next : Handler) (w : ResponseWriter) (r : Request)
    (tok : String) (e : ε) (e' : ε') (htok : tok ≠ "")
    (hh : r.Header.Get "Authorization" = "Bearer " ++ tok)
    (hv : v tok = Except.error e) (hv' : v' tok = Except.error e') :
    (AuthMiddleware v next w r).w =
        { header := w.header.Set "Content-Type" "application/json",
          calls := w.calls ++
            [WriterCall.WriteHeader 401,
             WriterCall.Encode { Success := false, Message := "Invalid or expired token" }] } ∧
    (AuthMiddleware v next w r).calls = [Call.ValidateToken tok] ∧
    (AuthMiddleware v next w r).nextCount = 0 ∧
    AuthMiddleware v next w r = AuthMiddleware v' next w r := by
  have h2 : r.Header.Get "Authorization" = "Bearer" ++ " " ++ tok := by rw [hh, bearer_cat]
  rw [auth_of_split v next w r "Bearer" tok bearer_no_space h2,
    auth_of_split v' next w r "Bearer" tok bearer_no_space h2]
  simp [htok, hv, hv', Run.nextCount, Call.isServeHTTP, respondError,
    ResponseWriter.HeaderSet, ResponseWriter.WriteHeader, ResponseWriter.Encode,
    StatusUnauthorized]

/-- Witness for C7: an expired token under one validator, a bad signature under
another. -/
theorem auth_invalid_token_uniform_witness :
    (AuthMiddleware rejectExpired createdHandler freshWriter (bearerRequest "Bearer abc")).w =
        { header := freshWriter.header.Set "Content-Type" "application/json",
          calls := freshWriter.calls ++
            [WriterCall.WriteHeader 401,
             WriterCall.Encode { Success := false, Message := "Invalid or expired token" }] } ∧
    (AuthMiddleware rejectExpired createdHandler freshWriter
      (bearerRequest "Bearer abc")).calls = [Call.ValidateToken "abc"] ∧
    (AuthMiddleware rejectExpired createdHandler freshWriter
      (bearerRequest "Bearer abc")).nextCount = 0 ∧
    AuthMiddleware rejectExpired createdHandler freshWriter (bearerRequest "Bearer abc") =
      AuthMiddleware rejectSignature createdHandler freshWriter (bearerRequest "Bearer abc") :=
  auth_invalid_token_uniform rejectExpired rejectSignature createdHandler freshWriter
    (bearerRequest "Bearer abc") "abc" "token is expired" 7 (by decide) (by decide) rfl rfl

/-! ## `CorsMiddleware` -/

/-- C8: for a request whose method is `"OPTIONS"`, whatever its path and headers and
whatever `next` is, the handler `CorsMiddleware(next)` adds exactly one writer call,
`WriteHeader(200)`, so the body is empty, and makes no call on `next`; for a request
whose method is not `"OPTIONS"` it invokes `next` exactly once, on a writer that has
the same write record as the one it was given, and the writer it leaves is the one
`next` left, so it writes no status and no body itself. -/
theorem cors_preflight_short_circuit (next : Handler) (w : ResponseWriter) (r : Request) :
    (r.Method = "OPTIONS" →
      (CorsMiddleware next w r).w.calls = w.calls ++ [WriterCall.WriteHeader 200] ∧
      (CorsMiddleware next w r).calls = [] ∧
      (CorsMiddleware next w r).nextCount = 0 ∧
      (CorsMiddleware next w r).panicked = false) ∧
    (r.Method ≠ "OPTIONS" →
      ∃ w' : ResponseWriter, w'.calls = w.calls ∧
        (CorsMiddleware next w r).calls = [Call.ServeHTTP w' r] ∧
        (CorsMiddleware next w r).nextCount = 1 ∧
        (CorsMiddleware next w r).w = (next w' r).w ∧
        (CorsMiddleware next w r).panicked = (next w' r).panicked) := by
  constructor
  · intro h
    simp [CorsMiddleware, h, ResponseWriter.HeaderSet, ResponseWriter.WriteHeader, StatusOK,
      Run.nextCount]
  · intro h
    simp only [CorsMiddleware, if_neg h]
    refine ⟨_, ?_, rfl, ?_, ?_, ?_⟩ <;> rfl

/-- Witness for C8: a preflight is answered with a bare 200 although `next` would
answer 201; a `GET` reaches `next` once. -/
theorem cors_preflight_short_circuit_witness :
    ((CorsMiddleware createdHandler freshWriter (serverRequest "OPTIONS" Header.empty)).w.calls
        = freshWriter.calls ++ [WriterCall.WriteHeader 200] ∧
      (CorsMiddleware createdHandler freshWriter (serverRequest "OPTIONS" Header.empty)).calls
        = [] ∧
      (CorsMiddleware createdHandler freshWriter
        (serverRequest "OPTIONS" Header.empty)).nextCount = 0 ∧
      (CorsMiddleware createdHandler freshWriter
        (serverRequest "OPTIONS" Header.empty)).panicked = false) ∧
    (∃ w' : ResponseWriter, w'.calls = freshWriter.calls ∧
        (CorsMiddleware createdHandler freshWriter (serverRequest "GET" Header.empty)).calls
          = [Call.ServeHTTP w' (serverRequest "GET" Header.empty)] ∧
        (CorsMiddleware createdHandler freshWriter
          (serverRequest "GET" Header.empty)).nextCount = 1 ∧
        (CorsMiddleware createdHandler freshWriter (serverRequest "GET" Header.empty)).w
          = (createdHandler w' (serverRequest "GET" Header.empty)).w ∧
        (CorsMiddleware createdHandler freshWriter (serverRequest "GET" Header.empty)).panicked
          = (createdHandler w' (serverRequest "GET" Header.empty)).panicked) :=
  ⟨(cors_preflight_short_circuit createdHandler freshWriter
      (serverRequest "OPTIONS" Header.empty)).1 rfl,
   (cors_preflight_short_circuit createdHandler freshWriter
      (serverRequest "GET" Header.empty)).2 (by decide)⟩

/-- C9: for every request, of any method, the handler `CorsMiddleware(next)` first
brings the writer into a state `w'` with an unchanged write record in which the six
CORS headers hold exactly the prescribed single values (the allowed origin is the
request's `Origin` value when that is non-empty and `"*"` otherwise) and every other
header is as it was; only then it either answers the preflight on `w'` and returns,
or invokes `next` on `w'`. -/
theorem cors_sets_six_headers (next : Handler) (w : ResponseWriter) (r : Request) :
    ∃ w' : ResponseWriter,
      w'.calls = w.calls ∧
      w'.header "Access-Control-Allow-Origin" =
        [if r.Header.Get "Origin" = "" then "*" else r.Header.Get "Origin"] ∧
      w'.header "Access-Control-Allow-Methods" = ["GET, POST, PUT, DELETE, PATCH, OPTIONS"] ∧
      w'.header "Access-Control-Allow-Headers" =
        ["Content-Type, Authorization, X-Requested-With, Accept, Origin"] ∧
      w'.header "Access-Control-Allow-Credentials" = ["true"] ∧
      w'.header "Access-Control-Max-Age" = ["3600"] ∧
      w'.header "Access-Control-Expose-Headers" = ["Content-Length, Content-Range"] ∧
      (∀ k : String, k ∉ corsKeys → w'.header k = w.header k) ∧
      (r.Method = "OPTIONS" →
        (CorsMiddleware next w r).w = w'.WriteHeader 200 ∧
        (CorsMiddleware next w r).calls = []) ∧
      (r.Method ≠ "OPTIONS" →
        (CorsMiddleware next w r).calls = [Call.ServeHTTP w' r] ∧
        (CorsMiddleware next w r).w = (next w' r).w) := by
  refine ⟨((((((w.HeaderSet "Access-Control-Allow-Origin"
      (if r.Header.Get "Origin" = "" then "*" else r.Header.Get "Origin")).HeaderSet
      "Access-Control-Allow-Methods" "GET, POST, PUT, DELETE, PATCH, OPTIONS").HeaderSet
      "Access-Control-Allow-Headers"
      "Content-Type, Authorization, X-Requested-With, Accept, Origin").HeaderSet
      "Access-Control-Allow-Credentials" "true").HeaderSet
      "Access-Control-Max-Age" "3600").HeaderSet
      "Access-Control-Expose-Headers" "Content-Length, Content-Range"),
    rfl, ?_, ?_, ?_, ?_, ?_, ?_, ?_, ?_, ?_⟩
  · simp [ResponseWriter.HeaderSet, Header.Set]
  · simp [ResponseWriter.HeaderSet, Header.Set]
  · simp [ResponseWriter.HeaderSet, Header.Set]
  · simp [ResponseWriter.HeaderSet, Header.Set]
  · simp [ResponseWriter.HeaderSet, Header.Set]
  · simp [ResponseWriter.HeaderSet, Header.Set]
  · intro k hk
    simp only [corsKeys, List.mem_cons, List.mem_singleton, List.mem_nil_iff, or_false,
      not_or] at hk
    obtain ⟨h1, h2, h3, h4, h5, h6⟩ := hk
    simp [ResponseWriter.HeaderSet, Header.Set, h1, h2, h3, h4, h5, h6]
  · intro h
    simp [CorsMiddleware, h, StatusOK]
  · intro h
    simp [CorsMiddleware, h]

/-- Witness for C9: a `POST` with `Origin: https://example.com`. -/
theorem cors_sets_six_headers_witness :
    ∃ w' : ResponseWriter,
      w'.calls = freshWriter.calls ∧
      w'.header "Access-Control-Allow-Origin" =
        [if (serverRequest "POST" (Header.empty.Set "Origin" "https://example.com")).Header.Get
            "Origin" = "" then "*"
         else (serverRequest "POST" (Header.empty.Set "Origin" "https://example.com")).Header.Get
            "Origin"] ∧
      w'.header "Access-Control-Allow-Methods" = ["GET, POST, PUT, DELETE, PATCH, OPTIONS"] ∧
      w'.header "Access-Control-Allow-Headers" =
        ["Content-Type, Authorization, X-Requested-With, Accept, Origin"] ∧
      w'.header "Access-Control-Allow-Credentials" = ["true"] ∧
      w'.header "Access-Control-Max-Age" = ["3600"] ∧
      w'.header "Access-Control-Expose-Headers" = ["Content-Length, Content-Range"] ∧
      (∀ k : String, k ∉ corsKeys → w'.header k = freshWriter.header k) ∧
      ((serverRequest "POST" (Header.empty.Set "Origin" "https://example.com")).Method
          = "OPTIONS" →
        (CorsMiddleware createdHandler freshWriter
          (serverRequest "POST" (Header.empty.Set "Origin" "https://example.com"))).w
          = w'.WriteHeader 200 ∧
        (CorsMiddleware createdHandler freshWriter
          (serverRequest "POST" (Header.empty.Set "Origin" "https://example.com"))).calls
          = []) ∧
      ((serverRequest "POST" (Header.empty.Set "Origin" "https://example.com")).Method
          ≠ "OPTIONS" →
        (CorsMiddleware createdHandler freshWriter
          (serverRequest "POST" (Header.empty.Set "Origin" "https://example.com"))).calls
          = [Call.ServeHTTP w'
              (serverRequest "POST" (Header.empty.Set "Origin" "https://example.com"))] ∧
        (CorsMiddleware createdHandler freshWriter
          (serverRequest "POST" (Header.empty.Set "Origin" "https://example.com"))).w
          = (createdHandler w'
              (serverRequest "POST" (Header.empty.Set "Origin" "https://example.com"))).w) :=
  cors_sets_six_headers createdHandler freshWriter
    (serverRequest "POST" (Header.empty.Set "Origin" "https://example.com"))

/-! ## `LoggingMiddleware` -/

/-- Whatever `next` is, when the request has no `Response` after `next` has returned
(and `next` cannot give it one without writing to `r.Response` itself), the run ends
in a panic and `slog.Info` is never called. -/
theorem logging_nil_response_panics (next : Handler) (start finish : Int)
    (w : ResponseWriter) (r : Request) (h : (next w r).r.Response = none) :
    (LoggingMiddleware next start finish w r).panicked = true ∧
    (LoggingMiddleware next start finish w r).calls = [Call.ServeHTTP w r] := by
  unfold LoggingMiddleware
  by_cases hp : (next w r).panicked = true
  · simp [hp]
  · cases hu : (next w r).r.URL <;> simp [hp, hu, h]

/-- C10 fails on the code.  On a request as a server hands it over (`Response` nil),
with a `next` that answers 201, `LoggingMiddleware(next)` invokes `next` once, the
response carries status 201, and then the run panics on `r.Response.StatusCode`: no
log record is emitted.  On a request that does carry a `Response` (status 302), the
record's status is 302, that of `r.Response`, not the 201 that `next` wrote. -/
theorem logging_status_read_from_request :
    (LoggingMiddleware createdHandler 0 5 freshWriter
      (serverRequest "GET" Header.empty)).nextCount = 1 ∧
    statusOf (LoggingMiddleware createdHandler 0 5 freshWriter
      (serverRequest "GET" Header.empty)).w.calls = 201 ∧
    (LoggingMiddleware createdHandler 0 5 freshWriter
      (serverRequest "GET" Header.empty)).panicked = true ∧
    (LoggingMiddleware createdHandler 0 5 freshWriter
      (serverRequest "GET" Header.empty)).calls.filter Call.isInfo = [] ∧
    statusOf (LoggingMiddleware createdHandler 0 5 freshWriter redirectedRequest).w.calls
      = 201 ∧
    (LoggingMiddleware createdHandler 0 5 freshWriter redirectedRequest).calls =
      [Call.ServeHTTP freshWriter redirectedRequest,
       Call.Info "HTTP Request"
         { method := "GET", path := "/api", status := 302, duration := 5,
           remote_addr := "127.0.0.1:4000", user_agent := "" }] := by
  refine ⟨by decide, by decide, by decide, ?_, by decide, ?_⟩ <;> rfl

end Middleware
